import Mathlib

set_option maxRecDepth 8192

namespace USART

/-!
Shallow embedding of the firmware core in
`src/eee158_mod5/EEE158_Mod05_Exercise_Template.X/main.c` and
`src/eee158_mod5/EEE158_Mod05_Exercise_Template.X/platform/gpio.c`.

The platform USART layer (`platform_usart.c` / `platform.h`) and
`platform/blink_settings.h` are not part of the sources; the pieces of them
that the claims need are modelled from the spec and marked as such in their
doc comments.  Everything else is translated directly from the two C files.
-/

/-- Completion status of the asynchronous receive.  Modelled from the spec:
`platform.h` is not under the sources; spec section 6 gives the status set
\x7bNONE, DATA\x7d. -/
inductive RxCompl
  | none
  | data
deriving DecidableEq

/-- Modelled from the spec: `platform.h` is not under the sources.  The button
mailbox mask has the two bits PRESS and RELEASE (spec sections 3 and 4.4). -/
def PLATFORM_PB_ONBOARD_PRESS : Nat := 1

/-- Modelled from the spec: the RELEASE bit of the button mailbox mask. -/
def PLATFORM_PB_ONBOARD_RELEASE : Nat := 2

/-- Modelled from the spec: the union of the two onboard button bits,
`PLATFORM_PB_ONBOARD_PRESS | PLATFORM_PB_ONBOARD_RELEASE`. -/
def PLATFORM_PB_ONBOARD_MASK : Nat := 3

/-- ASCII code named `HOME_KEY` in main.c (value 0x1B, the escape byte). -/
def HOME_KEY : Nat := 0x1B

/-- ASCII code for CTRL+E (main.c line 30). -/
def CTRL_E : Nat := 0x05

/-- Banner text `banner_msg` (main.c lines 32-43), without the final NUL. -/
def banner_msg : String :=
  "\x1B[1;1H"
  ++ "+--------------------------------------------------------------------+\r\n"
  ++ "| EEE 158: Electrical and Electronics Engineering Laboratory V       |\r\n"
  ++ "|          Academic Year 2024-2025, Semester 1                       |\r\n"
  ++ "|                                                                    |\r\n"
  ++ "| Solution: Graded Exercise                                          |\r\n"
  ++ "|                                                                    |\r\n"
  ++ "| Author:  EEE 158 Handlers (Almario, de Villa, Nierva, Sison, Tuso) |\r\n"
  ++ "| Date:    21 Oct 2024                                               |\r\n"
  ++ "+--------------------------------------------------------------------+\r\n"
  ++ "\r\n"

/-- Banner text `init_banner_msg` (main.c lines 44-57): the banner plus the
two initial status lines. -/
def init_banner_msg : String :=
  banner_msg
  ++ "On-board button: [Released]\r\n"
  ++ "Blink Setting: [   OFF  ]\r\n"

/-- Cursor escape `CHANGE_MODE` (main.c line 115). -/
def CHANGE_MODE : String := "\x1B[12;1H\x1B[0K"

/-- Cursor escape `ESC_SEQ_BUTTON_POS` (main.c line 148). -/
def ESC_SEQ_BUTTON_POS : String := "\x1B[11;1H"

/-- Literal `BUTTON_PRESSED` (main.c line 149). -/
def BUTTON_PRESSED : String := "On-board button: [Pressed] "

/-- Literal `BUTTON_RELEASED` (main.c line 150). -/
def BUTTON_RELEASED : String := "On-board button: [Released]"

/-- Number of blink settings (`NUM_SETTINGS`).  Modelled from the spec:
`platform/blink_settings.h` is not under the sources; the setting range is
\x7bOFF, SLOW, MEDIUM, FAST, ON\x7d (spec section 3), a C enum, so settings are
embedded as the naturals 0..4. -/
def NUM_SETTINGS : Nat := 5

/-- Blink setting `OFF` (ordinal 0).  Modelled from the spec (see
`NUM_SETTINGS`). -/
def OFF : Nat := 0

/-- Blink setting `ON` (ordinal 4).  Modelled from the spec (see
`NUM_SETTINGS`). -/
def ON : Nat := 4

/-- Status strings `blinkSettingStrings` (main.c lines 106-112), indexed by
the setting ordinal. -/
def blinkSettingStrings : Nat → String
  | 0 => "Blink Setting: [   OFF  ]\r\n"
  | 1 => "Blink Setting: [  SLOW  ]\r\n"
  | 2 => "Blink Setting: [ MEDIUM ]\r\n"
  | 3 => "Blink Setting: [  FAST  ]\r\n"
  | _ => "Blink Setting: [   ON   ]\r\n"

/-- Identifies which C byte array a transmit descriptor's `buf` pointer
refers to. -/
inductive SegBuf
  | nullB
  | initBannerB
  | bannerB
  | btnPosB
  | btnPressedB
  | btnReleasedB
  | changeModeB
  | blinkStrB (i : Nat)
deriving DecidableEq

/-- One `platform_usart_tx_bufdesc_t`: a \x7bbuffer, length\x7d pair. -/
structure Seg where
  buf : SegBuf
  len : Nat
deriving DecidableEq

/-- The five places in main.c that call `platform_usart_cdc_tx_async`:
the first-iteration banner (line 163), the button status update (lines
173/179), the blink-status emission inside `updateBlinkSetting` (line 129),
the banner-pending service (line 217) and the update-pending service
(line 275). -/
inductive TxSite
  | initBanner
  | buttonUpdate
  | updateBlink
  | bannerService
  | updateService
deriving DecidableEq

/-- One call to the non-blocking transmit facility, recording the site, the
value `platform_usart_cdc_tx_busy()` would have returned at the moment of
the call, the segment list passed, and whether the facility accepted. -/
structure TxAttempt where
  site : TxSite
  busyAtCall : Bool
  segs : List Seg
  accepted : Bool
deriving DecidableEq

/-- The program flags word `prog_state_t.flags`, one field per bit used:
`PROG_FLAG_BANNER_PENDING` (0x0001), `PROG_FLAG_UPDATE_PENDING` (0x0002),
`PROG_FLAG_GEN_COMPLETE` (0x8000). -/
structure Flags where
  bannerPending : Bool
  updatePending : Bool
  genComplete : Bool
deriving DecidableEq

/-- The machine state visible to the core: the fields of `prog_state_t`, the
file-scope globals of main.c (`currentSetting`, `init`), the interrupt
mailbox `pb_press_mask` of gpio.c, the LED output bit PA15, the TC0 counter,
and the transmit facility's busy state. -/
structure Mach where
  flags : Flags
  txd0 : Seg
  txd1 : Seg
  txd2 : Seg
  txd3 : Seg
  rxBuf : List Nat
  rxCompl : RxCompl
  rxDataLen : Nat
  rxDescBlen : Nat
  rxArmed : Bool
  cur : Nat
  initg : Nat
  pbMask : Nat
  ledOn : Bool
  tc0Count : Nat
  busy : Bool
deriving DecidableEq

/-- Reading `buf[i]` from a C char array: out-of-range cells read as the
zero the buffer was `memset` to at `prog_setup`. -/
def byteAt (buf : List Nat) (i : Nat) : Nat := buf.getD i 0

/-- An in-flight iteration context: the machine state, the number of
transmit-facility calls made so far this run (used to index the acceptance
oracle), and the log of transmit attempts. -/
structure Ctx where
  m : Mach
  k : Nat
  log : List TxAttempt
deriving DecidableEq

/-- Modelled from the spec: `platform_usart_cdc_tx_async` (the USART platform
source is not under the sources).  Spec section 6: a non-blocking
multi-segment transmit returning `accepted`; while a transfer is in flight
(`tx_busy()` true) a call is refused; when idle, acceptance is otherwise up
to the facility, modelled by the oracle `acc`; an accepted transfer makes
the facility busy. -/
def txTry (acc : Nat → Bool) (site : TxSite) (segs : List Seg) (c : Ctx) :
    Ctx × Bool :=
  let ok := !c.m.busy && acc c.k
  (⟨{ c.m with busy := c.m.busy || ok }, c.k + 1,
    c.log ++ [⟨site, c.m.busy, segs, ok⟩]⟩, ok)

/-- `platform_blink_modify` (gpio.c lines 230-241): its entire body is
commented out, so it returns leaving the state untouched. -/
def platform_blink_modify (m : Mach) : Mach := m

/-- `EIC_EXTINT_2_Handler` (gpio.c lines 252-262): clears the onboard bits
of `pb_press_mask` (`&= ~PLATFORM_PB_ONBOARD_MASK`, on a uint16 this is
`&& 0xFFFC`), then sets PRESS if the pin reads low (button pressed) and
RELEASE otherwise. -/
def EIC_EXTINT_2_Handler (pressed : Bool) (m : Mach) : Mach :=
  let m1 : Mach := { m with pbMask := m.pbMask &&& 0xFFFC }
  if pressed then
    { m1 with pbMask := m1.pbMask ||| PLATFORM_PB_ONBOARD_PRESS }
  else
    { m1 with pbMask := m1.pbMask ||| PLATFORM_PB_ONBOARD_RELEASE }

/-- `platform_pb_get_event` (gpio.c lines 308-313): returns the cached mask
and zeroes the mailbox. -/
def platform_pb_get_event (m : Mach) : Nat × Mach :=
  (m.pbMask, { m with pbMask := 0 })

/-- The step logic of `updateBlinkSetting` (main.c lines 118-122): saturating
increment/decrement of `currentSetting` on the closed range OFF..ON. -/
def advanceSetting (cur : Nat) (increase : Bool) : Nat :=
  if increase && decide (cur < ON) then cur + 1
  else if !increase && decide (OFF < cur) then cur - 1
  else cur

/-- `updateBlinkSetting` (main.c lines 117-138): steps `currentSetting`,
loads descriptors 0 and 1 with the cursor escape and the status string for
the post-transition value, calls the transmit facility with 2 segments
(ignoring its return), then drives the LED: OFF clears PA15, ON sets it, and
the intermediate settings delegate to `platform_blink_modify`. -/
def updateBlinkSetting (acc : Nat → Bool) (increase : Bool) (c : Ctx) : Ctx :=
  let cur2 := advanceSetting c.m.cur increase
  let m2 : Mach :=
    { c.m with
      cur := cur2,
      txd0 := ⟨.changeModeB, CHANGE_MODE.length⟩,
      txd1 := ⟨.blinkStrB cur2, (blinkSettingStrings cur2).length⟩ }
  let c1 := (txTry acc .updateBlink [m2.txd0, m2.txd1] { c with m := m2 }).1
  if cur2 = OFF then { c1 with m := { c1.m with ledOn := false } }
  else if cur2 = ON then { c1 with m := { c1.m with ledOn := true } }
  else { c1 with m := platform_blink_modify c1.m }

/-- First-iteration banner (main.c lines 160-165): when the global `init` is
0, load descriptor 0 with `init_banner_msg` and call the transmit facility
unconditionally with 1 segment, then set `init` to 1. -/
def phaseInitBanner (acc : Nat → Bool) (c : Ctx) : Ctx :=
  if c.m.initg = 0 then
    let m2 : Mach := { c.m with txd0 := ⟨.initBannerB, init_banner_msg.length⟩ }
    let c1 := (txTry acc .initBanner [m2.txd0] { c with m := m2 }).1
    { c1 with m := { c1.m with initg := 1 } }
  else c

/-- Button servicing (main.c lines 166-181): drain the mailbox via
`platform_pb_get_event`; on a non-zero mask, test the PRESS bit and `else`
the RELEASE bit, each branch loading descriptors 0-1 with the cursor escape
and the literal status string and calling the transmit facility with 2
segments unconditionally. -/
def phaseButton (acc : Nat → Bool) (c : Ctx) : Ctx :=
  let a := (platform_pb_get_event c.m).1
  let c0 : Ctx := { c with m := (platform_pb_get_event c.m).2 }
  if a ≠ 0 then
    if a &&& PLATFORM_PB_ONBOARD_PRESS ≠ 0 then
      let m2 : Mach :=
        { c0.m with
          txd0 := ⟨.btnPosB, ESC_SEQ_BUTTON_POS.length⟩,
          txd1 := ⟨.btnPressedB, BUTTON_PRESSED.length⟩ }
      (txTry acc .buttonUpdate [m2.txd0, m2.txd1] { c0 with m := m2 }).1
    else if a &&& PLATFORM_PB_ONBOARD_RELEASE ≠ 0 then
      let m2 : Mach :=
        { c0.m with
          txd0 := ⟨.btnPosB, ESC_SEQ_BUTTON_POS.length⟩,
          txd1 := ⟨.btnReleasedB, BUTTON_RELEASED.length⟩ }
      (txTry acc .buttonUpdate [m2.txd0, m2.txd1] { c0 with m := m2 }).1
    else c0
  else c0

/-- The receive classification condition of main.c line 187: first byte is
CTRL+E, or first byte is ESC (0x1B) and the third buffered byte is 0x48
(the byte at index 1 is not examined, and the byte count is not consulted). -/
def setsBannerFlag (buf : List Nat) : Bool :=
  byteAt buf 0 == CTRL_E || (byteAt buf 0 == 0x1B && byteAt buf 2 == 0x48)

/-- Receive classification (main.c lines 184-193): when the completion
status is DATA, set `PROG_FLAG_BANNER_PENDING` when `setsBannerFlag` holds,
else set `PROG_FLAG_UPDATE_PENDING`, and record the completed byte count in
`rx_desc_blen`. -/
def phaseRxClassify (c : Ctx) : Ctx :=
  if c.m.rxCompl = RxCompl.data then
    let fl :=
      if setsBannerFlag c.m.rxBuf then
        { c.m.flags with bannerPending := true }
      else
        { c.m.flags with updatePending := true }
    { c with m := { c.m with flags := fl, rxDescBlen := c.m.rxDataLen } }
  else c

/-- Banner-pending service (main.c lines 199-220): break unless the banner
flag is set; break while the facility is busy; if generation is not
complete, load descriptor 0 with `banner_msg`, set `PROG_FLAG_GEN_COMPLETE`
and re-arm the receiver; attempt the 1-segment transfer, and on acceptance
clear both the banner and generation flags. -/
def phaseBanner (acc : Nat → Bool) (c : Ctx) : Ctx :=
  if c.m.flags.bannerPending then
    if c.m.busy then c
    else
      let c1 : Ctx :=
        if c.m.flags.genComplete then c
        else
          { c with m :=
            { c.m with
              txd0 := ⟨.bannerB, banner_msg.length⟩,
              flags := { c.m.flags with genComplete := true },
              rxCompl := RxCompl.none,
              rxArmed := true } }
      let r := txTry acc .bannerService [c1.m.txd0] c1
      if r.2 then
        { r.1 with m :=
          { r.1.m with flags :=
            { r.1.m.flags with bannerPending := false, genComplete := false } } }
      else r.1
  else c

/-- The classification performed by the decode block of the update service
(main.c lines 234-261), reading only the buffered bytes at indices 0, 1
and 2: ESC '[' 'D' and ESC '[' 'C' are the arrow keys; a first byte of
0x61/0x41 or 0x44/0x64 is a plain alias command; any other ESC frame does
nothing; every other first byte falls back to the opaque-data branch. -/
inductive DecodeAction
  | arrowLeft
  | arrowRight
  | aliasLeft
  | aliasRight
  | fallback
  | nop
deriving DecidableEq

/-- Decode classification of main.c lines 234-261 (see `DecodeAction`). -/
def decodeAction (buf : List Nat) : DecodeAction :=
  if byteAt buf 0 == 0x1B then
    if byteAt buf 1 == 0x5B then
      if byteAt buf 2 == 0x44 then .arrowLeft
      else if byteAt buf 2 == 0x43 then .arrowRight
      else .nop
    else .nop
  else if byteAt buf 0 == 0x61 || byteAt buf 0 == 0x41 then .aliasLeft
  else if byteAt buf 0 == 0x44 || byteAt buf 0 == 0x64 then .aliasRight
  else .fallback

/-- The decode block body (main.c lines 234-261): arrow keys and alias
commands zero the TC0 counter and call `updateBlinkSetting`; the opaque-data
fallback re-sets `PROG_FLAG_UPDATE_PENDING` and records the byte count; an
unrecognized ESC frame does nothing. -/
def runDecode (acc : Nat → Bool) (c : Ctx) : Ctx :=
  match decodeAction c.m.rxBuf with
  | .arrowLeft =>
      updateBlinkSetting acc false { c with m := { c.m with tc0Count := 0 } }
  | .arrowRight =>
      updateBlinkSetting acc true { c with m := { c.m with tc0Count := 0 } }
  | .aliasLeft =>
      updateBlinkSetting acc false { c with m := { c.m with tc0Count := 0 } }
  | .aliasRight =>
      updateBlinkSetting acc true { c with m := { c.m with tc0Count := 0 } }
  | .fallback =>
      { c with m :=
        { c.m with
          flags := { c.m.flags with updatePending := true },
          rxDescBlen := c.m.rxDataLen } }
  | .nop => c

/-- Update-pending service (main.c lines 223-282): break unless the update
flag is set; break while the facility is busy; if generation is not
complete, run the decode block, then spin `while (tx_busy())` until the
facility is idle again (the bounded blocking point — modelled as the
in-flight transfer completing), re-arm the receiver, set
`PROG_FLAG_GEN_COMPLETE` and zero `rx_desc_blen`; attempt a 3-segment
transfer of descriptors 0-2, and on acceptance re-arm the receiver and
clear both the update and generation flags. -/
def phaseUpdate (acc : Nat → Bool) (c : Ctx) : Ctx :=
  if c.m.flags.updatePending then
    if c.m.busy then c
    else
      let c1 : Ctx :=
        if c.m.flags.genComplete then c
        else
          let cD := runDecode acc c
          let cW : Ctx := { cD with m := { cD.m with busy := false } }
          { cW with m :=
            { cW.m with
              rxCompl := RxCompl.none,
              rxArmed := true,
              flags := { cW.m.flags with genComplete := true },
              rxDescBlen := 0 } }
      let r := txTry acc .updateService [c1.m.txd0, c1.m.txd1, c1.m.txd2] c1
      if r.2 then
        { r.1 with m :=
          { r.1.m with
            rxCompl := RxCompl.none,
            rxArmed := true,
            flags :=
              { r.1.m.flags with updatePending := false, genComplete := false } } }
      else r.1
  else c

/-- One iteration of `prog_loop_one` (main.c lines 153-286): the platform
tick and the no-op `platform_blink_modify` call, then the first-iteration
banner, button servicing, receive classification, banner-pending service
and update-pending service, in source order.  Returns the post-state and
the log of transmit-facility calls made during the iteration. -/
def prog_loop_one (acc : Nat → Bool) (m : Mach) : Mach × List TxAttempt :=
  let c0 : Ctx := ⟨platform_blink_modify m, 0, []⟩
  let c :=
    phaseUpdate acc (phaseBanner acc (phaseRxClassify
      (phaseButton acc (phaseInitBanner acc c0))))
  (c.m, c.log)

/-- Folding a whole sequence of `updateBlinkSetting` direction arguments
over the setting, starting from OFF (the reset value of `currentSetting`). -/
def runAdvances (l : List Bool) : Nat := l.foldl advanceSetting OFF

/-- Modelled from the spec: the two-hex-digit rendering of one received
byte followed by the literal marker of spec section 6 (the hex-dump loop
belongs to the legacy loop revision, which is not under the sources). -/
def hexDigitStr : Nat → String
  | 0 => "0"
  | 1 => "1"
  | 2 => "2"
  | 3 => "3"
  | 4 => "4"
  | 5 => "5"
  | 6 => "6"
  | 7 => "7"
  | 8 => "8"
  | 9 => "9"
  | 10 => "A"
  | 11 => "B"
  | 12 => "C"
  | 13 => "D"
  | 14 => "E"
  | _ => "F"

/-- Modelled from the spec: one rendered token, two hex digits of the byte
followed by the literal marker " Pressed" (spec section 6 gives the echo as
a two-hex-digit token plus " Pressed" per byte). -/
def hexToken (b : Nat) : String :=
  hexDigitStr (b / 16 % 16) ++ hexDigitStr (b % 16) ++ " Pressed"

/-- Modelled from the spec: hex-dump generation into the 64-byte scratch
buffer `tx_buf` — tokens are appended in order only while the whole next
token still fits in the 64-byte capacity (safe truncation, spec section
4.3).  Returns the rendered string and the number of tokens rendered. -/
def hexDumpA : List Nat → String → String × Nat
  | [], out => (out, 0)
  | b :: rest, out =>
    if out.length + (hexToken b).length ≤ 64 then
      let r := hexDumpA rest (out ++ hexToken b)
      (r.1, r.2 + 1)
    else (out, 0)

/-- The rendered hex dump of a completed opaque frame (see `hexDumpA`). -/
def hexDump (bytes : List Nat) : String := (hexDumpA bytes "").1

/-- The number of tokens rendered into the scratch buffer (see `hexDumpA`). -/
def hexDumpTokens (bytes : List Nat) : Nat := (hexDumpA bytes "").2

/-- A quiescent machine state after the first iteration: the state produced
by `prog_setup` (all of `prog_state_t` zeroed, `currentSetting = OFF`,
mailbox empty) with the first-iteration banner already behind us
(`init = 1`) and the transmit facility idle. -/
def mach0 : Mach :=
  { flags := ⟨false, false, false⟩
    txd0 := ⟨.nullB, 0⟩
    txd1 := ⟨.nullB, 0⟩
    txd2 := ⟨.nullB, 0⟩
    txd3 := ⟨.nullB, 0⟩
    rxBuf := [0, 0, 0, 0, 0, 0, 0, 0, 0, 0, 0, 0, 0, 0, 0, 0]
    rxCompl := RxCompl.none
    rxDataLen := 0
    rxDescBlen := 0
    rxArmed := true
    cur := 0
    initg := 1
    pbMask := 0
    ledOn := false
    tc0Count := 0
    busy := true }

/-- `mach0` but with the transmit facility idle. -/
def machIdle : Mach := { mach0 with busy := false }

/-- A state in which a transfer is still in flight (`tx_busy()` true) while
the mailbox holds a PRESS edge. -/
def machC1 : Mach := { mach0 with busy := true, pbMask := PLATFORM_PB_ONBOARD_PRESS }

/-- An idle state whose mailbox carries both the PRESS and the RELEASE bit. -/
def machC2 : Mach := { machIdle with pbMask := PLATFORM_PB_ONBOARD_MASK }

/-- An idle state holding a completed 3-byte frame ESC 'x' 'H': not CTRL+E
and not the Home-key sequence ESC '[' 'H'. -/
def machC6 : Mach :=
  { machIdle with
    rxCompl := RxCompl.data
    rxDataLen := 3
    rxBuf := [0x1B, 0x78, 0x48, 0, 0, 0, 0, 0, 0, 0, 0, 0, 0, 0, 0, 0] }

/-- An idle state with update-pending set for a completed 1-byte frame (a
lone ESC byte), while buffer cells 1 and 2 still hold the stale bytes
'[' and 'D' of an earlier, longer frame. -/
def machC7 : Mach :=
  { machIdle with
    flags := ⟨false, true, false⟩
    cur := 3
    rxCompl := RxCompl.data
    rxDataLen := 1
    rxBuf := [0x1B, 0x5B, 0x44, 0, 0, 0, 0, 0, 0, 0, 0, 0, 0, 0, 0, 0] }

/-- An idle state with banner-pending and generation-complete both set (a
banner transfer generated earlier but not yet accepted). -/
def machW : Mach := { machIdle with flags := ⟨true, false, true⟩ }

/-- An idle state with update-pending set for a completed left-arrow frame
ESC '[' 'D', the setting at MEDIUM. -/
def machC5 : Mach :=
  { machIdle with
    flags := ⟨false, true, false⟩
    cur := 2
    rxCompl := RxCompl.data
    rxDataLen := 3
    rxBuf := [0x1B, 0x5B, 0x44, 0, 0, 0, 0, 0, 0, 0, 0, 0, 0, 0, 0, 0] }

/-! Helper lemmas shared by several claim theorems. -/

theorem advanceSetting_le (cur : Nat) (inc : Bool) (h : cur ≤ ON) :
    advanceSetting cur inc ≤ ON := by
  unfold advanceSetting
  split_ifs with h1 h2 <;> simp_all [ON] <;> omega

theorem foldl_advance_le (l : List Bool) :
    ∀ cur, cur ≤ ON → l.foldl advanceSetting cur ≤ ON := by
  induction l with
  | nil => intro cur h; simpa using h
  | cons b t ih => intro cur h; exact ih _ (advanceSetting_le cur b h)

/-- C4: for every sequence of calls to the blink-mode advance operation
starting from OFF, the setting stays within the closed range OFF..ON, and
each call moves by exactly one ordinal step in the requested direction
except at the corresponding boundary, where it leaves the setting unchanged
(the operation has no error output to signal). -/
theorem blink_setting_saturating (l : List Bool) :
    runAdvances l ≤ ON ∧
    ∀ cur inc, cur ≤ ON →
      advanceSetting cur inc =
        if inc = true then (if cur < ON then cur + 1 else cur)
        else (if OFF < cur then cur - 1 else cur) := by
  constructor
  · exact foldl_advance_le l OFF (by decide)
  · intro cur inc h
    unfold advanceSetting
    cases inc <;> simp [ON, OFF]

/-- Witness for `blink_setting_saturating` at a concrete run and step. -/
theorem blink_setting_saturating_witness :
    runAdvances [true, true, false] ≤ ON ∧ advanceSetting 2 true = 3 := by
  constructor
  · exact (blink_setting_saturating [true, true, false]).1
  · have h := (blink_setting_saturating [true, true, false]).2 2 true (by decide)
    simpa using h

/-- C10: `platform_blink_modify` leaves the machine state untouched (its
body is entirely commented out), and consequently a blink-mode step whose
post-transition setting is intermediate (SLOW, MEDIUM or FAST) leaves the
LED output unchanged. -/
theorem blink_modify_noop :
    (∀ m, platform_blink_modify m = m) ∧
    ∀ (acc : Nat → Bool) (inc : Bool) (c : Ctx),
      OFF < advanceSetting c.m.cur inc → advanceSetting c.m.cur inc < ON →
      (updateBlinkSetting acc inc c).m.ledOn = c.m.ledOn := by
  refine ⟨fun m => rfl, ?_⟩
  intro acc inc c h1 h2
  have hOff : ¬(advanceSetting c.m.cur inc = OFF) := by omega
  have hOn : ¬(advanceSetting c.m.cur inc = ON) := by omega
  simp [updateBlinkSetting, txTry, platform_blink_modify, hOff, hOn]

/-- Witness for `blink_modify_noop`: a step from SLOW to MEDIUM leaves the
LED bit where it was. -/
theorem blink_modify_noop_witness :
    platform_blink_modify mach0 = mach0 ∧
    (updateBlinkSetting (fun _ => true) true ⟨{ mach0 with cur := 1 }, 0, []⟩).m.ledOn =
      (⟨{ mach0 with cur := 1 }, 0, []⟩ : Ctx).m.ledOn := by
  refine ⟨blink_modify_noop.1 mach0, ?_⟩
  exact blink_modify_noop.2 (fun _ => true) true ⟨{ mach0 with cur := 1 }, 0, []⟩
    (by decide) (by decide)

/-- C3 counterexample: two edges before a poll do not accumulate.  A PRESS
edge followed by a RELEASE edge leaves only the RELEASE bit in the mailbox:
the PRESS bit that was set since the last poll has been erased, so the mask
is 2, not the union 3. -/
theorem mailbox_overwrites_cex :
    (EIC_EXTINT_2_Handler true mach0).pbMask &&& PLATFORM_PB_ONBOARD_PRESS ≠ 0 ∧
    (EIC_EXTINT_2_Handler false (EIC_EXTINT_2_Handler true mach0)).pbMask = 2 ∧
    (EIC_EXTINT_2_Handler false (EIC_EXTINT_2_Handler true mach0)).pbMask &&&
      PLATFORM_PB_ONBOARD_PRESS = 0 ∧
    (EIC_EXTINT_2_Handler false (EIC_EXTINT_2_Handler true mach0)).pbMask ≠
      (PLATFORM_PB_ONBOARD_PRESS ||| PLATFORM_PB_ONBOARD_RELEASE) := by
  decide

/-- C3 amended: the interrupt handler overwrites the single-slot mailbox
rather than accumulating into it — after any edge, the mailbox holds
exactly the bit of that latest edge (PRESS if the pin read low, RELEASE
otherwise), any bit recorded since the last poll having been cleared
first. -/
theorem mailbox_latest_edge (p : Bool) (m : Mach) (h : m.pbMask ≤ 3) :
    (EIC_EXTINT_2_Handler p m).pbMask =
      if p then PLATFORM_PB_ONBOARD_PRESS else PLATFORM_PB_ONBOARD_RELEASE := by
  have h4 : m.pbMask &&& 0xFFFC = 0 := by
    rcases (by omega : m.pbMask = 0 ∨ m.pbMask = 1 ∨ m.pbMask = 2 ∨ m.pbMask = 3) with
      h' | h' | h' | h' <;> rw [h'] <;> decide
  cases p <;>
    simp [EIC_EXTINT_2_Handler, h4, PLATFORM_PB_ONBOARD_PRESS,
      PLATFORM_PB_ONBOARD_RELEASE]

/-- Witness for `mailbox_latest_edge` at a concrete state and edge. -/
theorem mailbox_latest_edge_witness :
    mach0.pbMask ≤ 3 ∧
    (EIC_EXTINT_2_Handler true mach0).pbMask = PLATFORM_PB_ONBOARD_PRESS := by
  refine ⟨by decide, ?_⟩
  simpa using mailbox_latest_edge true mach0 (by decide)

theorem hexDigitStr_length (n : Nat) : (hexDigitStr n).length = 1 := by
  unfold hexDigitStr
  split <;> rfl

theorem hexToken_length (b : Nat) : (hexToken b).length = 10 := by
  simp [hexToken, String.length_append, hexDigitStr_length]
  decide

theorem hexDumpA_spec (bytes : List Nat) : ∀ out : String,
    (hexDumpA bytes out).2 = min bytes.length ((64 - out.length) / 10) ∧
    (hexDumpA bytes out).1.length = out.length + 10 * (hexDumpA bytes out).2 := by
  induction bytes with
  | nil => intro out; simp [hexDumpA]
  | cons b rest ih =>
    intro out
    unfold hexDumpA
    rw [hexToken_length]
    by_cases h : out.length + 10 ≤ 64
    · obtain ⟨h1, h2⟩ := ih (out ++ hexToken b)
      rw [String.length_append, hexToken_length] at h1 h2
      simp only [if_pos h]
      constructor
      · rw [h1]
        simp only [List.length_cons]
        omega
      · rw [h2, h1]
        omega
    · simp only [if_neg h]
      constructor
      · simp only [List.length_cons]
        omega
      · omega

/-- C8 counterexample: a completed opaque frame of 7 bytes (so L = 7,
within 1 ≤ L ≤ 16) renders only 6 tokens into the 64-byte scratch buffer,
not exactly L = 7 — the seventh 10-byte token does not fit in the
remaining 4 bytes of capacity and is truncated away. -/
theorem hexdump_seven_tokens_cex :
    hexDumpTokens [0, 0, 0, 0, 0, 0, 0] = 6 ∧
    hexDumpTokens [0, 0, 0, 0, 0, 0, 0] ≠ [0, 0, 0, 0, 0, 0, 0].length := by
  decide

/-- C8 amended: servicing an opaque frame of length L renders exactly
min(L, 6) tokens — so exactly L only while L ≤ 6 — each a two-hex-digit
token followed by the literal marker, and the rendered output never exceeds
the 64-byte scratch capacity (truncation is safe). -/
theorem hexdump_renders_min (bytes : List Nat) :
    hexDumpTokens bytes = min bytes.length 6 ∧
    (hexDump bytes).length = 10 * min bytes.length 6 ∧
    (hexDump bytes).length ≤ 64 := by
  obtain ⟨h1, h2⟩ := hexDumpA_spec bytes ""
  have hz : ("" : String).length = 0 := rfl
  rw [hz] at h1 h2
  refine ⟨?_, ?_, ?_⟩
  · simpa using h1
  · unfold hexDump
    rw [h2]
    simpa using h1
  · unfold hexDump
    rw [h2]
    have : min bytes.length 6 ≤ 6 := Nat.min_le_right _ _
    simp only [Nat.zero_add]
    omega

theorem updateBlinkSetting_cur (acc : Nat → Bool) (inc : Bool) (c : Ctx) :
    (updateBlinkSetting acc inc c).m.cur = advanceSetting c.m.cur inc := by
  unfold updateBlinkSetting txTry platform_blink_modify
  simp only []
  split_ifs <;> rfl

theorem runDecode_cur (acc : Nat → Bool) (c : Ctx) :
    (runDecode acc c).m.cur =
      match decodeAction c.m.rxBuf with
      | .arrowLeft => advanceSetting c.m.cur false
      | .arrowRight => advanceSetting c.m.cur true
      | .aliasLeft => advanceSetting c.m.cur false
      | .aliasRight => advanceSetting c.m.cur true
      | .fallback => c.m.cur
      | .nop => c.m.cur := by
  unfold runDecode
  cases hd : decodeAction c.m.rxBuf <;> simp [updateBlinkSetting_cur]

theorem phaseUpdate_cur (acc : Nat → Bool) (c : Ctx)
    (hU : c.m.flags.updatePending = true)
    (hG : c.m.flags.genComplete = false)
    (hB : c.m.busy = false) :
    (phaseUpdate acc c).m.cur = (runDecode acc c).m.cur := by
  unfold phaseUpdate txTry
  simp only [hU, hG, hB, Bool.false_eq_true, if_false, eq_self_iff_true, if_true]
  split <;> rfl

/-- C5: on the update path (update-pending set, facility idle, generation
not yet complete), a frame beginning ESC '[' 'D' advances the setting with
`advance(false)`, ESC '[' 'C' with `advance(true)`, a first byte 'a'/'A'
with `advance(false)`, and a first byte 'd'/'D' with `advance(true)`. -/
theorem decode_arrow_and_alias (acc : Nat → Bool) (c : Ctx)
    (hU : c.m.flags.updatePending = true)
    (hG : c.m.flags.genComplete = false)
    (hB : c.m.busy = false) :
    (byteAt c.m.rxBuf 0 = 0x1B → byteAt c.m.rxBuf 1 = 0x5B →
      byteAt c.m.rxBuf 2 = 0x44 →
      (phaseUpdate acc c).m.cur = advanceSetting c.m.cur false) ∧
    (byteAt c.m.rxBuf 0 = 0x1B → byteAt c.m.rxBuf 1 = 0x5B →
      byteAt c.m.rxBuf 2 = 0x43 →
      (phaseUpdate acc c).m.cur = advanceSetting c.m.cur true) ∧
    ((byteAt c.m.rxBuf 0 = 0x61 ∨ byteAt c.m.rxBuf 0 = 0x41) →
      (phaseUpdate acc c).m.cur = advanceSetting c.m.cur false) ∧
    ((byteAt c.m.rxBuf 0 = 0x44 ∨ byteAt c.m.rxBuf 0 = 0x64) →
      (phaseUpdate acc c).m.cur = advanceSetting c.m.cur true) := by
  rw [phaseUpdate_cur acc c hU hG hB, runDecode_cur]
  refine ⟨?_, ?_, ?_, ?_⟩
  · intro h0 h1 h2
    have hd : decodeAction c.m.rxBuf = DecodeAction.arrowLeft := by
      unfold decodeAction
      rw [h0, h1, h2]
      rfl
    rw [hd]
  · intro h0 h1 h2
    have hd : decodeAction c.m.rxBuf = DecodeAction.arrowRight := by
      unfold decodeAction
      rw [h0, h1, h2]
      rfl
    rw [hd]
  · intro h0
    have hd : decodeAction c.m.rxBuf = DecodeAction.aliasLeft := by
      unfold decodeAction
      rcases h0 with h | h <;> rw [h] <;> rfl
    rw [hd]
  · intro h0
    have hd : decodeAction c.m.rxBuf = DecodeAction.aliasRight := by
      unfold decodeAction
      rcases h0 with h | h <;> rw [h] <;> rfl
    rw [hd]

/-- Witness for `decode_arrow_and_alias`: a left-arrow frame at setting
MEDIUM steps the setting down. -/
theorem decode_arrow_and_alias_witness :
    (phaseUpdate (fun _ => true) ⟨machC5, 0, []⟩).m.cur =
      advanceSetting (⟨machC5, 0, []⟩ : Ctx).m.cur false := by
  exact (decode_arrow_and_alias (fun _ => true) ⟨machC5, 0, []⟩
    (by decide) (by decide) (by decide)).1 (by decide) (by decide) (by decide)

/-- C6 counterexample: the completed frame ESC 'x' 'H' is neither the
refresh control byte CTRL+E nor the 3-byte Home-key sequence ESC '[' 'H',
yet the decoder sets banner-pending for it (and not update-pending): the
byte at index 1 is never examined. -/
theorem classify_second_byte_ignored_cex :
    byteAt machC6.rxBuf 0 ≠ CTRL_E ∧
    ¬(byteAt machC6.rxBuf 0 = 0x1B ∧ byteAt machC6.rxBuf 1 = 0x5B ∧
        byteAt machC6.rxBuf 2 = 0x48) ∧
    machC6.rxCompl = RxCompl.data ∧
    (phaseRxClassify ⟨machC6, 0, []⟩).m.flags.bannerPending = true ∧
    (phaseRxClassify ⟨machC6, 0, []⟩).m.flags.updatePending = false := by
  decide

/-- C6 amended: for every completed receive frame the decoder sets exactly
one of the two flags, and it sets banner-pending exactly when the first
byte is CTRL+E, or the first byte is ESC and the third buffered byte is
'H' — the second byte is not examined; every other frame sets
update-pending. -/
theorem classify_exactly_one (c : Ctx)
    (hD : c.m.rxCompl = RxCompl.data)
    (hb : c.m.flags.bannerPending = false)
    (hu : c.m.flags.updatePending = false) :
    ((phaseRxClassify c).m.flags.bannerPending
        = !(phaseRxClassify c).m.flags.updatePending) ∧
    ((phaseRxClassify c).m.flags.bannerPending = true ↔
      (byteAt c.m.rxBuf 0 = CTRL_E ∨
        (byteAt c.m.rxBuf 0 = 0x1B ∧ byteAt c.m.rxBuf 2 = 0x48))) := by
  unfold phaseRxClassify
  rw [if_pos hD]
  by_cases hs : setsBannerFlag c.m.rxBuf
  · rw [if_pos hs]
    unfold setsBannerFlag at hs
    constructor
    · simp [hu]
    · simpa using hs
  · rw [if_neg hs]
    unfold setsBannerFlag at hs
    constructor
    · simp [hb]
    · simpa [hb] using hs

/-- Witness for `classify_exactly_one` at the concrete frame of `machC6`. -/
theorem classify_exactly_one_witness :
    (phaseRxClassify ⟨machC6, 0, []⟩).m.flags.bannerPending
      = !(phaseRxClassify ⟨machC6, 0, []⟩).m.flags.updatePending := by
  exact (classify_exactly_one ⟨machC6, 0, []⟩ (by decide) (by decide) (by decide)).1

/-- C7 counterexample: a completed frame of byte count 1 (a lone ESC) whose
buffer cells 1 and 2 hold the stale bytes '[' and 'D' of an earlier frame
is classified as a left-arrow sequence — the decoder reads the would-be
final discriminating byte and steps the setting from FAST to MEDIUM — and
is not routed to the opaque-data fallback path. -/
theorem short_frame_reads_stale_cex :
    machC7.rxDataLen < 3 ∧
    decodeAction machC7.rxBuf = DecodeAction.arrowLeft ∧
    decodeAction machC7.rxBuf ≠ DecodeAction.fallback ∧
    machC7.cur = 3 ∧
    (phaseUpdate (fun _ => true) ⟨machC7, 0, []⟩).m.cur = 2 := by
  decide

/-- C7 amended: the decoder never consults the completed byte count —
both the banner classification and the update-path decode depend only on
the buffered bytes at indices 0, 1 and 2, stale or not, so a short frame is
not specially routed to the opaque-data path. -/
theorem decode_ignores_byte_count (buf buf2 : List Nat)
    (h0 : byteAt buf 0 = byteAt buf2 0)
    (h1 : byteAt buf 1 = byteAt buf2 1)
    (h2 : byteAt buf 2 = byteAt buf2 2) :
    decodeAction buf = decodeAction buf2 ∧
    setsBannerFlag buf = setsBannerFlag buf2 := by
  unfold decodeAction setsBannerFlag
  rw [h0, h1, h2]
  exact ⟨rfl, rfl⟩

/-- Witness for `decode_ignores_byte_count`: a full 3-byte left-arrow frame
and the 1-byte frame of `machC7` with stale cells classify identically. -/
theorem decode_ignores_byte_count_witness :
    decodeAction [0x1B, 0x5B, 0x44] = decodeAction machC7.rxBuf := by
  exact (decode_ignores_byte_count [0x1B, 0x5B, 0x44] machC7.rxBuf
    (by decide) (by decide) (by decide)).1

/-- C2 counterexample: with both the PRESS and the RELEASE bit in the
polled mask, the iteration issues exactly one button status transfer (the
Pressed one), not two: the RELEASE bit is swallowed by the else-if, and no
Released status update is ever queued. -/
theorem dual_mask_single_update_cex :
    machC2.pbMask = (PLATFORM_PB_ONBOARD_PRESS ||| PLATFORM_PB_ONBOARD_RELEASE) ∧
    ((prog_loop_one (fun _ => true) machC2).2.filter
      (fun a => decide (a.site = TxSite.buttonUpdate))).length = 1 ∧
    ((prog_loop_one (fun _ => true) machC2).2.filter
      (fun a => decide (a.site = TxSite.buttonUpdate))).length ≠ 2 ∧
    ((prog_loop_one (fun _ => true) machC2).2.filter
      (fun a => decide ((⟨SegBuf.btnReleasedB, BUTTON_RELEASED.length⟩ : Seg)
        ∈ a.segs))).length = 0 := by
  decide

/-- C2 amended: the PRESS and RELEASE bits are checked mutually exclusively
(else-if) with PRESS taking priority — whenever the polled mask carries the
PRESS bit, the button servicing issues exactly one transfer, the
two-segment Pressed status update, regardless of the RELEASE bit. -/
theorem button_press_priority (acc : Nat → Bool) (c : Ctx)
    (h : c.m.pbMask &&& PLATFORM_PB_ONBOARD_PRESS ≠ 0) :
    (phaseButton acc c).log = c.log ++
      [⟨TxSite.buttonUpdate, c.m.busy,
        [⟨SegBuf.btnPosB, ESC_SEQ_BUTTON_POS.length⟩,
         ⟨SegBuf.btnPressedB, BUTTON_PRESSED.length⟩],
        !c.m.busy && acc c.k⟩] := by
  have hne : c.m.pbMask ≠ 0 := by
    intro h0
    apply h
    rw [h0]
    rfl
  unfold phaseButton platform_pb_get_event txTry
  simp only []
  rw [if_pos hne, if_pos h]

/-- Witness for `button_press_priority` on the dual-bit mask of `machC2`. -/
theorem button_press_priority_witness :
    (phaseButton (fun _ => true) ⟨machC2, 0, []⟩).log =
      [⟨TxSite.buttonUpdate, false,
        [⟨SegBuf.btnPosB, ESC_SEQ_BUTTON_POS.length⟩,
         ⟨SegBuf.btnPressedB, BUTTON_PRESSED.length⟩], true⟩] := by
  have h := button_press_priority (fun _ => true) ⟨machC2, 0, []⟩ (by decide)
  simpa [machC2, machIdle, mach0] using h

/-- C9: servicing banner-pending while the facility is idle attempts the
transfer; when the attempt is not accepted, banner-pending and (once set)
generation-complete stay set for a retry on a later iteration and the rest
of the program state (setting, receive buffer, mailbox) is untouched; when
the attempt is accepted, both flags are cleared in the same iteration. -/
theorem banner_retry_semantics (acc : Nat → Bool) (c : Ctx)
    (hP : c.m.flags.bannerPending = true)
    (hB : c.m.busy = false) :
    (acc c.k = false →
      (phaseBanner acc c).m.flags.bannerPending = true ∧
      (phaseBanner acc c).m.flags.genComplete = true ∧
      (phaseBanner acc c).m.cur = c.m.cur ∧
      (phaseBanner acc c).m.rxBuf = c.m.rxBuf ∧
      (phaseBanner acc c).m.pbMask = c.m.pbMask) ∧
    (acc c.k = true →
      (phaseBanner acc c).m.flags.bannerPending = false ∧
      (phaseBanner acc c).m.flags.genComplete = false) := by
  unfold phaseBanner txTry
  by_cases hG : c.m.flags.genComplete = true <;> by_cases hA : acc c.k = true <;>
    simp [hP, hB, hG, hA]

/-- Witness for `banner_retry_semantics`: a refused banner attempt leaves
the banner flag pending. -/
theorem banner_retry_semantics_witness :
    (phaseBanner (fun _ => false)
      ⟨{ machIdle with flags := ⟨true, false, false⟩ }, 0, []⟩).m.flags.bannerPending
      = true := by
  exact ((banner_retry_semantics (fun _ => false)
    ⟨{ machIdle with flags := ⟨true, false, false⟩ }, 0, []⟩
    (by decide) (by decide)).1 rfl).1

theorem updateBlinkSetting_log (acc : Nat → Bool) (inc : Bool) (c : Ctx) :
    (updateBlinkSetting acc inc c).log = c.log ++
      [⟨TxSite.updateBlink, c.m.busy,
        [⟨SegBuf.changeModeB, CHANGE_MODE.length⟩,
         ⟨SegBuf.blinkStrB (advanceSetting c.m.cur inc),
          (blinkSettingStrings (advanceSetting c.m.cur inc)).length⟩],
        !c.m.busy && acc c.k⟩] := by
  unfold updateBlinkSetting txTry platform_blink_modify
  simp only []
  split_ifs <;> rfl

theorem phaseInitBanner_log (acc : Nat → Bool) (c : Ctx) :
    (phaseInitBanner acc c).log = c.log ∨
    ∃ s ok, (phaseInitBanner acc c).log =
      c.log ++ [⟨TxSite.initBanner, c.m.busy, s, ok⟩] := by
  unfold phaseInitBanner txTry
  simp only []
  split_ifs with h
  · right
    exact ⟨_, _, rfl⟩
  · left
    rfl

theorem phaseButton_log (acc : Nat → Bool) (c : Ctx) :
    (phaseButton acc c).log = c.log ∨
    ∃ s ok, (phaseButton acc c).log =
      c.log ++ [⟨TxSite.buttonUpdate, c.m.busy, s, ok⟩] := by
  unfold phaseButton platform_pb_get_event txTry
  simp only []
  split_ifs <;> first | (left; rfl) | (right; exact ⟨_, _, rfl⟩)

theorem phaseRxClassify_log (c : Ctx) : (phaseRxClassify c).log = c.log := by
  unfold phaseRxClassify
  split_ifs <;> rfl

theorem phaseBanner_log (acc : Nat → Bool) (c : Ctx) :
    (phaseBanner acc c).log = c.log ∨
    (c.m.busy = false ∧ ∃ s ok, (phaseBanner acc c).log =
      c.log ++ [⟨TxSite.bannerService, c.m.busy, s, ok⟩]) := by
  unfold phaseBanner txTry
  simp only []
  split_ifs <;>
    first
      | (left; rfl)
      | (right; exact ⟨by simpa using ‹¬(c.m.busy = true)›, _, _, rfl⟩)

theorem runDecode_log (acc : Nat → Bool) (c : Ctx) :
    (runDecode acc c).log = c.log ∨
    ∃ s ok, (runDecode acc c).log =
      c.log ++ [⟨TxSite.updateBlink, c.m.busy, s, ok⟩] := by
  unfold runDecode
  cases decodeAction c.m.rxBuf
  case arrowLeft => exact Or.inr ⟨_, _, updateBlinkSetting_log acc false _⟩
  case arrowRight => exact Or.inr ⟨_, _, updateBlinkSetting_log acc true _⟩
  case aliasLeft => exact Or.inr ⟨_, _, updateBlinkSetting_log acc false _⟩
  case aliasRight => exact Or.inr ⟨_, _, updateBlinkSetting_log acc true _⟩
  case fallback => exact Or.inl rfl
  case nop => exact Or.inl rfl

theorem phaseInitBanner_mem (acc : Nat → Bool) (c : Ctx) :
    ∀ a ∈ (phaseInitBanner acc c).log, a ∈ c.log ∨ a.site = TxSite.initBanner := by
  intro a ha
  rcases phaseInitBanner_log acc c with h | ⟨s, ok, h⟩
  · rw [h] at ha
    exact Or.inl ha
  · rw [h] at ha
    rcases List.mem_append.mp ha with h2 | h2
    · exact Or.inl h2
    · right
      rw [List.mem_singleton.mp h2]

theorem phaseButton_mem (acc : Nat → Bool) (c : Ctx) :
    ∀ a ∈ (phaseButton acc c).log, a ∈ c.log ∨ a.site = TxSite.buttonUpdate := by
  intro a ha
  rcases phaseButton_log acc c with h | ⟨s, ok, h⟩
  · rw [h] at ha
    exact Or.inl ha
  · rw [h] at ha
    rcases List.mem_append.mp ha with h2 | h2
    · exact Or.inl h2
    · right
      rw [List.mem_singleton.mp h2]

theorem phaseBanner_mem (acc : Nat → Bool) (c : Ctx) :
    ∀ a ∈ (phaseBanner acc c).log, a ∈ c.log ∨
      (a.site = TxSite.bannerService ∧ a.busyAtCall = false) := by
  intro a ha
  rcases phaseBanner_log acc c with h | ⟨hb, s, ok, h⟩
  · rw [h] at ha
    exact Or.inl ha
  · rw [h] at ha
    rcases List.mem_append.mp ha with h2 | h2
    · exact Or.inl h2
    · right
      rw [List.mem_singleton.mp h2]
      exact ⟨rfl, hb⟩

theorem phaseUpdate_mem (acc : Nat → Bool) (c : Ctx) :
    ∀ a ∈ (phaseUpdate acc c).log, a ∈ c.log ∨
      ((a.site = TxSite.updateBlink ∨ a.site = TxSite.updateService) ∧
        a.busyAtCall = false) := by
  intro a ha
  unfold phaseUpdate txTry at ha
  simp only [] at ha
  by_cases hP : c.m.flags.updatePending = true
  · rw [if_pos hP] at ha
    by_cases hBu : c.m.busy = true
    · rw [if_pos hBu] at ha
      exact Or.inl ha
    · have hB : c.m.busy = false := by simpa using hBu
      rw [if_neg hBu] at ha
      by_cases hG : c.m.flags.genComplete = true
      · rw [if_pos hG] at ha
        split_ifs at ha <;>
          · simp only [List.mem_append, List.mem_singleton] at ha
            rcases ha with h | h
            · exact Or.inl h
            · refine Or.inr ⟨Or.inr (by rw [h]), ?_⟩
              rw [h]
              exact hB
      · rw [if_neg hG] at ha
        split_ifs at ha <;>
          · simp only [List.mem_append, List.mem_singleton] at ha
            rcases ha with h | h
            · rcases runDecode_log acc c with hr | ⟨s, ok, hr⟩
              · rw [hr] at h
                exact Or.inl h
              · rw [hr] at h
                rcases List.mem_append.mp h with h2 | h2
                · exact Or.inl h2
                · refine Or.inr ⟨Or.inl (by rw [List.mem_singleton.mp h2]), ?_⟩
                  rw [List.mem_singleton.mp h2]
                  exact hB
            · refine Or.inr ⟨Or.inr (by rw [h]), ?_⟩
              rw [h]
  · rw [if_neg hP] at ha
    exact Or.inl ha

/-- C1 counterexample: with a transfer still in flight (`tx_busy()` true)
and a PRESS edge in the mailbox, the iteration still calls the non-blocking
transmit facility — the button status site attempts unconditionally, so a
transmit attempt does occur while the busy query returns true. -/
theorem tx_attempt_while_busy_cex :
    machC1.busy = true ∧
    (prog_loop_one (fun _ => true) machC1).2 =
      [⟨TxSite.buttonUpdate, true,
        [⟨SegBuf.btnPosB, ESC_SEQ_BUTTON_POS.length⟩,
         ⟨SegBuf.btnPressedB, BUTTON_PRESSED.length⟩], false⟩] ∧
    ((prog_loop_one (fun _ => true) machC1).2.filter
      (fun a => a.busyAtCall)).length ≠ 0 := by
  decide

/-- C1 amended: the no-transmit-while-busy discipline holds exactly at the
flag-serviced transmit sites — every attempt logged in an iteration at the
banner service, update service or blink-status site is made while
`tx_busy()` reads false — while the first-iteration banner site and the
button status site attempt unconditionally (see the counterexample). -/
theorem service_sites_not_busy (acc : Nat → Bool) (m : Mach) :
    ∀ a ∈ (prog_loop_one acc m).2,
      (a.site = TxSite.bannerService ∨ a.site = TxSite.updateService ∨
        a.site = TxSite.updateBlink) → a.busyAtCall = false := by
  intro a ha hsite
  unfold prog_loop_one at ha
  simp only [] at ha
  rcases phaseUpdate_mem acc _ a ha with h4 | ⟨_, hb⟩
  · rcases phaseBanner_mem acc _ a h4 with h3 | ⟨hsB, hbB⟩
    · rw [phaseRxClassify_log] at h3
      rcases phaseButton_mem acc _ a h3 with h2 | hsBtn
      · rcases phaseInitBanner_mem acc _ a h2 with h1 | hsInit
        · simp only [] at h1
          exact absurd h1 (List.not_mem_nil a)
        · rw [hsInit] at hsite
          simp at hsite
      · rw [hsBtn] at hsite
        simp at hsite
    · exact hbB
  · exact hb

/-- Witness for `service_sites_not_busy`: the banner-service attempt of the
iteration on `machW` is made with the facility idle. -/
theorem service_sites_not_busy_witness :
    (⟨TxSite.bannerService, false, [⟨SegBuf.nullB, 0⟩], true⟩ : TxAttempt).busyAtCall
      = false := by
  exact service_sites_not_busy (fun _ => true) machW
    ⟨TxSite.bannerService, false, [⟨SegBuf.nullB, 0⟩], true⟩ (by decide) (Or.inl rfl)

end USART
